import Mathlib

/-!
# Verification of the STK-push relay (`src/script.js`)

A shallow embedding of the single-file Express/axios application that relays
"STK push" payment-initiation requests to the Safaricom sandbox gateway.
The JavaScript values flowing through the program (parsed JSON request
bodies, gateway responses) are modelled by the inductive type `Json`;
JavaScript `undefined` is modelled by `Option Json` with `none` standing for
`undefined`.  Numbers are modelled by `Int` (all numbers appearing in the
program and its contract are integral; `NaN` and `-0` do not arise).
The two outbound axios calls are modelled by an oracle (`Gateway`) supplying
their outcomes, and each handler returns, alongside its HTTP response, the
ordered trace of outbound calls it performed.
-/

namespace Stk

/-- Parsed JSON values (the result of `express.json()` body parsing or of an
axios response's `data`).  Object field lists are the already-parsed objects,
so keys are unique.  Numbers are modelled as integers. -/
inductive Json where
  | null
  | bool (b : Bool)
  | num (n : Int)
  | str (s : String)
  | arr (elems : List Json)
  | obj (fields : List (String × Json))
deriving Repr

/-- Property access `v.k` on a parsed JSON value: yields the field's value on
an object that has the field, and `undefined` (`none`) otherwise. -/
def Json.lookup : Json → String → Option Json
  | .obj fields, k => List.lookup k fields
  | _, _ => none

/-- JavaScript string coercion of a defined value, as used in template
literals: `String(v)`.  Arrays render by `Array.prototype.join(",")`, under
which a `null` element renders as the empty string; the flag records whether
the value is an element of an enclosing array. -/
def Json.jsToStringAux : Bool → Json → String
  | inArr, .null => cond inArr "" "null"
  | _, .bool b => cond b "true" "false"
  | _, .num n => n.repr
  | _, .str s => s
  | _, .obj _ => "[object Object]"
  | _, .arr l => String.intercalate "," (l.attach.map (fun x =>
      Json.jsToStringAux true x.1))
termination_by _ j => sizeOf j
decreasing_by
  have := List.sizeOf_lt_of_mem x.2
  simp only [Json.arr.sizeOf_spec]
  omega

/-- JavaScript string coercion `${v}` of a defined (top-level) value. -/
def Json.jsToString (j : Json) : String := Json.jsToStringAux false j

/-- JavaScript string coercion of a possibly-`undefined` value:
`undefined` renders as the string `undefined`. -/
def jsStr : Option Json → String
  | none => "undefined"
  | some j => j.jsToString

/-- JavaScript falsiness of a possibly-`undefined` value, as tested by
`!phone || !amount || ...` on line 108: `undefined`, `null`, `false`, `0`
and the empty string are falsy, every other JSON value is truthy. -/
def jsFalsy : Option Json → Bool
  | none => true
  | some .null => true
  | some (.bool false) => true
  | some (.num 0) => true
  | some (.str "") => true
  | _ => false

/-- The five environment variables destructured from `process.env` on
lines 9-15.  The spec's invariant is that credentials are present, so they
are modelled as (possibly empty) strings. -/
structure Env where
  CONSUMER_KEY : String
  CONSUMER_SECRET : String
  BUSINESS_SHORTCODE : String
  PASSKEY : String
  CALLBACK_URL : String

/-! ## Timestamps (`getTimestamp`, lines 47-55) -/

/-- A UTC clock reading as held by a JavaScript `Date`: the broken-down UTC
fields, at millisecond resolution. -/
structure DateTime where
  year : Nat
  month : Nat
  day : Nat
  hour : Nat
  minute : Nat
  second : Nat
  ms : Nat

/-- The character for a single decimal digit value. -/
def digitChar (d : Nat) : Char := Char.ofNat (48 + d)

/-- Accumulate the decimal digits of `n`, least significant digit pushed
first; the first argument is descending fuel bounding the recursion depth. -/
def natCharsAux : Nat → Nat → List Char → List Char
  | 0, _, acc => acc
  | fuel + 1, n, acc =>
      if n = 0 then acc else natCharsAux fuel (n / 10) (digitChar (n % 10) :: acc)

/-- The decimal-digit characters of `n`, most significant first
(empty for `0`; every rendered field below is zero-padded anyway). -/
def natChars (n : Nat) : List Char := natCharsAux n n []

/-- `n` rendered in decimal and left-padded with `0` to width `w`, as each
numeric field of `Date.prototype.toISOString` is rendered. -/
def padChars (w : Nat) (n : Nat) : List Char :=
  List.replicate (w - (natChars n).length) '0' ++ natChars n

/-- The characters of `date.toISOString()` (line 52): the UTC fields in the
simplified ISO-8601 format `YYYY-MM-DDTHH:mm:ss.sssZ`.  This models the
standard four-digit-year format, which ECMAScript produces for every year
in `0..9999`. -/
def DateTime.isoChars (d : DateTime) : List Char :=
  padChars 4 d.year ++ ['-'] ++ padChars 2 d.month ++ ['-'] ++ padChars 2 d.day
    ++ ['T'] ++ padChars 2 d.hour ++ [':'] ++ padChars 2 d.minute ++ [':']
    ++ padChars 2 d.second ++ ['.'] ++ padChars 3 d.ms ++ ['Z']

/-- `date.toISOString()` as a string. -/
def DateTime.toISOString (d : DateTime) : String := String.mk d.isoChars

/-- `.replace(/[^0-9]/g, '')` (line 53): keep only the decimal digits. -/
def digitsOnly (s : String) : String := String.mk (s.data.filter Char.isDigit)

/-- `.slice(0, -3)` (line 54): drop the last three characters
(all characters when the string is shorter than three). -/
def sliceDropLast3 (s : String) : String := String.mk (s.data.take (s.data.length - 3))

/-- `getTimestamp` (lines 47-55) evaluated at the clock reading `d`: the ISO
string of the current UTC time with every non-digit removed and the last
three characters (the milliseconds) dropped. -/
def getTimestamp (d : DateTime) : String :=
  sliceDropLast3 (digitsOnly d.toISOString)

/-! ## Base64 and UTF-8 (`Buffer.from(s).toString('base64')`) -/

/-- The base64 alphabet: index `n < 64` to its character. -/
def base64Digit (n : Nat) : Char :=
  if n < 26 then Char.ofNat (65 + n)
  else if n < 52 then Char.ofNat (97 + (n - 26))
  else if n < 62 then Char.ofNat (48 + (n - 52))
  else if n = 62 then '+'
  else '/'

/-- Standard base64 encoding of a byte sequence (bytes as naturals `< 256`),
three bytes to four characters, `=`-padded. -/
def base64Encode : List Nat → List Char
  | [] => []
  | [b1] =>
      [base64Digit (b1 / 4), base64Digit (b1 % 4 * 16), '=', '=']
  | [b1, b2] =>
      [base64Digit (b1 / 4), base64Digit (b1 % 4 * 16 + b2 / 16),
       base64Digit (b2 % 16 * 4), '=']
  | b1 :: b2 :: b3 :: rest =>
      base64Digit (b1 / 4) :: base64Digit (b1 % 4 * 16 + b2 / 16)
        :: base64Digit (b2 % 16 * 4 + b3 / 64) :: base64Digit (b3 % 64)
        :: base64Encode rest

/-- UTF-8 encoding of one Unicode code point. -/
def utf8EncodeChar (c : Nat) : List Nat :=
  if c < 0x80 then [c]
  else if c < 0x800 then [0xC0 + c / 64, 0x80 + c % 64]
  else if c < 0x10000 then [0xE0 + c / 4096, 0x80 + c / 64 % 64, 0x80 + c % 64]
  else [0xF0 + c / 262144, 0x80 + c / 4096 % 64, 0x80 + c / 64 % 64, 0x80 + c % 64]

/-- The UTF-8 bytes of a string, as `Buffer.from(s)` produces them. -/
def utf8Bytes (s : String) : List Nat :=
  s.data.foldr (fun c acc => utf8EncodeChar c.toNat ++ acc) []

/-- `Buffer.from(s).toString('base64')`: base64 over the UTF-8 bytes of `s`. -/
def bufferBase64 (s : String) : String := String.mk (base64Encode (utf8Bytes s))

/-! ## The gateway oracle and outbound-call traces -/

/-- Outcome of one outbound axios call: either a 2xx response carrying the
parsed JSON `data`, or a failure (network error or non-2xx status), which
axios surfaces as a thrown error carrying a message. -/
inductive AxiosResult where
  | ok (data : Json)
  | err (msg : String)

/-- The JSON body of the push `POST` built on lines 75-87, field for field. -/
structure StkPushBody where
  BusinessShortCode : String
  Password : String
  Timestamp : String
  TransactionType : String
  Amount : Json
  PartyA : Json
  PartyB : String
  PhoneNumber : Json
  CallBackURL : String
  AccountReference : Json
  TransactionDesc : Json

/-- The mocked gateway: what each of the two outbound endpoints would answer.
The push answer may depend on the request body and `Authorization` header
sent. -/
structure Gateway where
  tokenResponse : AxiosResult
  pushResponse : StkPushBody → String → AxiosResult

/-- One outbound HTTP call, as recorded in a handler's trace: the OAuth
token-fetch `GET` (line 28) or the push `POST` (line 73), each with its
`Authorization` header. -/
inductive OutCall where
  | tokenFetch (authHeader : String)
  | pushPost (body : StkPushBody) (authHeader : String)

/-- Whether an outbound call is the OAuth token fetch. -/
def OutCall.isTokenFetch : OutCall → Bool
  | .tokenFetch _ => true
  | .pushPost _ _ => false

/-- Whether an outbound call is the push `POST`. -/
def OutCall.isPush : OutCall → Bool
  | .tokenFetch _ => false
  | .pushPost _ _ => true

/-! ## `getAccessToken` (lines 22-40) -/

/-- `getAccessToken`: base64-encode `KEY:SECRET`, `GET` the OAuth endpoint
with a `Basic` header, and return `res.data.access_token` (which is
`undefined` when the 2xx response has no such field).  On a failed call the
caught error is rethrown as `Failed to get M-Pesa access token`.  The result
is paired with the trace of outbound calls performed. -/
def getAccessToken (env : Env) (gw : Gateway) :
    Except String (Option Json) × List OutCall :=
  let auth := bufferBase64 (env.CONSUMER_KEY ++ ":" ++ env.CONSUMER_SECRET)
  let call := OutCall.tokenFetch ("Basic " ++ auth)
  match gw.tokenResponse with
  | .ok data => (.ok (data.lookup "access_token"), [call])
  | .err _ => (.error "Failed to get M-Pesa access token", [call])

/-! ## `stkPush` (lines 65-100) -/

/-- The password of line 69:
`Buffer.from(`SHORTCODE PASSKEY timestamp`).toString('base64')`. -/
def stkPushPassword (env : Env) (timestamp : String) : String :=
  bufferBase64 (env.BUSINESS_SHORTCODE ++ env.PASSKEY ++ timestamp)

/-- The request body literal of lines 75-87. -/
def stkPushBody (env : Env) (phone amount accountRef transactionDesc : Json)
    (timestamp password : String) : StkPushBody :=
  { BusinessShortCode := env.BUSINESS_SHORTCODE
    Password := password
    Timestamp := timestamp
    TransactionType := "CustomerPayBillOnline"
    Amount := amount
    PartyA := phone
    PartyB := env.BUSINESS_SHORTCODE
    PhoneNumber := phone
    CallBackURL := env.CALLBACK_URL
    AccountReference := accountRef
    TransactionDesc := transactionDesc }

/-- `stkPush`: build timestamp and password, fetch a token (an error there
propagates uncaught), then `POST` the body with a `Bearer` header; return
`res.data` on success and throw `Failed to initiate STK Push` on a failed
call.  The result is paired with the ordered trace of outbound calls. -/
def stkPush (env : Env) (gw : Gateway) (dt : DateTime)
    (phone amount accountRef transactionDesc : Json) :
    Except String Json × List OutCall :=
  let timestamp := getTimestamp dt
  let password := stkPushPassword env timestamp
  match getAccessToken env gw with
  | (.error e, calls) => (.error e, calls)
  | (.ok token, calls) =>
      let body := stkPushBody env phone amount accountRef transactionDesc
        timestamp password
      let authHeader := "Bearer " ++ jsStr token
      match gw.pushResponse body authHeader with
      | .ok data => (.ok data, calls ++ [.pushPost body authHeader])
      | .err _ => (.error "Failed to initiate STK Push",
          calls ++ [.pushPost body authHeader])

/-! ## The two route handlers (lines 103-131) -/

/-- A response body as Express produces it: a JSON body (`res.json`) or the
plain-text status message that `res.sendStatus` sends. -/
inductive RespBody where
  | empty
  | text (s : String)
  | json (j : Json)
deriving Repr

/-- An HTTP response of a route handler. -/
structure HttpResponse where
  status : Nat
  body : RespBody
deriving Repr

/-- The `POST /stkpush` handler (lines 103-121): destructure the four fields
from the parsed request body; if any is falsy answer
`400 {error: 'Missing required parameters: ...'}` (and make no outbound
call); otherwise run `stkPush` and answer `200` with the gateway response,
or `500 {error: message}` when it throws (`error.message || 'STK Push
failed'`). -/
def handleStkPush (env : Env) (gw : Gateway) (dt : DateTime) (reqBody : Json) :
    HttpResponse × List OutCall :=
  let phone := reqBody.lookup "phone"
  let amount := reqBody.lookup "amount"
  let reference := reqBody.lookup "reference"
  let description := reqBody.lookup "description"
  if jsFalsy phone || jsFalsy amount || jsFalsy reference || jsFalsy description then
    (⟨400, .json (.obj [("error",
      .str "Missing required parameters: phone, amount, reference, description")])⟩, [])
  else
    match stkPush env gw dt (phone.getD .null) (amount.getD .null)
        (reference.getD .null) (description.getD .null) with
    | (.ok response, calls) => (⟨200, .json response⟩, calls)
    | (.error msg, calls) =>
        (⟨500, .json (.obj [("error",
          .str (if msg = "" then "STK Push failed" else msg))])⟩, calls)

/-- The `POST /callback` handler (lines 125-131): log the payload and answer
`res.sendStatus(200)`, which sends status `200` with the status message
`OK` as its plain-text body.  No outbound call is made. -/
def handleCallback (_payload : Json) : HttpResponse :=
  ⟨200, .text "OK"⟩

/-! ## Concrete fixtures used to instantiate the theorems -/

/-- A concrete credential environment. -/
def env0 : Env :=
  ⟨"key", "secret", "174379", "passkey0123", "https://example.com/callback"⟩

/-- A concrete UTC clock reading: 2026-02-11T12:34:56.789Z. -/
def dt0 : DateTime := ⟨2026, 2, 11, 12, 34, 56, 789⟩

/-- A gateway whose token fetch and push both succeed. -/
def gwOk : Gateway :=
  ⟨.ok (.obj [("access_token", .str "tok123")]),
   fun _ _ => .ok (.obj [("CheckoutRequestID", .str "ws_1")])⟩

/-- A gateway whose token fetch fails (network error / non-2xx). -/
def gwTokenErr : Gateway :=
  ⟨.err "connect ECONNREFUSED", fun _ _ => .ok (.obj [])⟩

/-- A gateway whose token fetch succeeds with a 2xx JSON body that has no
`access_token` field. -/
def gwNoToken : Gateway :=
  ⟨.ok (.obj [("expires_in", .str "3599")]), fun _ _ => .ok (.obj [])⟩

/-- A complete, valid `/stkpush` request body. -/
def reqBody0 : Json :=
  .obj [("phone", .str "254712345678"), ("amount", .num 100),
        ("reference", .str "INV001"), ("description", .str "Test")]

/-- The push body that `stkPush` builds from `env0`, `dt0` and the fields of
`reqBody0`. -/
def pushBody0 : StkPushBody :=
  stkPushBody env0 (.str "254712345678") (.num 100) (.str "INV001")
    (.str "Test") (getTimestamp dt0) (stkPushPassword env0 (getTimestamp dt0))

/-- The `Authorization` header sent with the push against `gwOk`
(the string `Bearer tok123`). -/
def hdr0 : String := "Bearer " ++ jsStr (some (.str "tok123"))

end Stk

namespace Stk

/-! ## Decimal rendering lemmas -/

/-- `natCharsAux` agrees with the base-10 digit list once the fuel covers the
argument. -/
theorem natCharsAux_eq (fuel : Nat) : ∀ n acc, n ≤ fuel →
    natCharsAux fuel n acc = (Nat.digits 10 n).reverse.map digitChar ++ acc := by
  induction fuel with
  | zero =>
      intro n acc hn
      interval_cases n
      simp [natCharsAux]
  | succ fuel ih =>
      intro n acc hn
      by_cases h0 : n = 0
      · subst h0; simp [natCharsAux]
      · rw [natCharsAux, if_neg h0,
          ih (n / 10) _ (by
            have : n / 10 < n := Nat.div_lt_self (Nat.pos_of_ne_zero h0) (by norm_num)
            omega),
          Nat.digits_def' (by norm_num : (1:ℕ) < 10) (Nat.pos_of_ne_zero h0)]
        simp

/-- `natChars n` is the base-10 digit string of `n`. -/
theorem natChars_eq (n : Nat) :
    natChars n = (Nat.digits 10 n).reverse.map digitChar := by
  rw [natChars, natCharsAux_eq n n [] le_rfl, List.append_nil]

/-- Every character produced by `natChars` is a decimal digit. -/
theorem natChars_isDigit (n : Nat) : ∀ c ∈ natChars n, c.isDigit := by
  intro c hc
  rw [natChars_eq] at hc
  simp only [List.mem_map, List.mem_reverse] at hc
  obtain ⟨d, hd, rfl⟩ := hc
  have hlt : d < 10 := Nat.digits_lt_base (by norm_num) hd
  unfold digitChar
  interval_cases d <;> decide

/-- `n < 10 ^ w` gives at most `w` decimal digits. -/
theorem natChars_length_le {n w : Nat} (h : n < 10 ^ w) :
    (natChars n).length ≤ w := by
  rw [natChars_eq]
  simp only [List.length_map, List.length_reverse]
  rcases Nat.eq_zero_or_pos n with rfl | hn
  · simp
  · by_contra hlt
    push_neg at hlt
    have h1 : (10:ℕ) ^ ((Nat.digits 10 n).length) ≤ 10 * n :=
      Nat.base_pow_length_digits_le 10 n (by norm_num) (Nat.pos_iff_ne_zero.mp hn)
    have h2 : (10:ℕ) ^ (w + 1) ≤ 10 ^ ((Nat.digits 10 n).length) :=
      Nat.pow_le_pow_right (by norm_num) hlt
    have h3 : (10:ℕ) ^ (w + 1) = 10 * 10 ^ w := by ring
    have h4 : (10:ℕ) * 10 ^ w ≤ 10 * n := by omega
    have h5 : (10:ℕ) ^ w ≤ n := Nat.le_of_mul_le_mul_left h4 (by norm_num)
    omega

/-- A padded field has exactly its width when the value fits the width. -/
theorem padChars_length {w n : Nat} (h : n < 10 ^ w) :
    (padChars w n).length = w := by
  have := natChars_length_le h
  simp only [padChars, List.length_append, List.length_replicate]
  omega

/-- Every character of a padded field is a decimal digit. -/
theorem padChars_isDigit (w n : Nat) : ∀ c ∈ padChars w n, c.isDigit := by
  intro c hc
  simp only [padChars, List.mem_append, List.mem_replicate] at hc
  rcases hc with ⟨-, rfl⟩ | hc
  · decide
  · exact natChars_isDigit n c hc

/-- Filtering for digits keeps an all-digit list unchanged. -/
theorem filter_padChars (w n : Nat) :
    (padChars w n).filter Char.isDigit = padChars w n :=
  List.filter_eq_self.mpr (padChars_isDigit w n)

/-- `String.mk` and `length` commute definitionally. -/
theorem mk_length (l : List Char) : (String.mk l).length = l.length := rfl

/-- `String.mk` and `data` commute definitionally. -/
theorem mk_data (l : List Char) : (String.mk l).data = l := rfl

/-- `sliceDropLast3` on a made string, as a list computation. -/
theorem sliceDropLast3_mk (X : List Char) :
    sliceDropLast3 (String.mk X) = String.mk (X.take (X.length - 3)) := rfl

/-- `digitsOnly` of the ISO string, as a list computation. -/
theorem digitsOnly_toISO (d : DateTime) :
    digitsOnly d.toISOString = String.mk (d.isoChars.filter Char.isDigit) := rfl

/-- `getTimestamp` unfolded to one list computation. -/
theorem getTimestamp_unfold (d : DateTime) :
    getTimestamp d = String.mk ((d.isoChars.filter Char.isDigit).take
      ((d.isoChars.filter Char.isDigit).length - 3)) := by
  rw [show getTimestamp d = sliceDropLast3 (digitsOnly d.toISOString) from rfl,
    digitsOnly_toISO, sliceDropLast3_mk]

/-- The digit characters of the ISO string: the six date-time fields followed
by the millisecond field, the separators gone. -/
theorem isoChars_filter (d : DateTime) :
    d.isoChars.filter Char.isDigit =
      padChars 4 d.year ++ (padChars 2 d.month ++ (padChars 2 d.day ++
      (padChars 2 d.hour ++ (padChars 2 d.minute ++ (padChars 2 d.second ++
      padChars 3 d.ms))))) := by
  have hdash : List.filter Char.isDigit ['-'] = [] := by decide
  have hT : List.filter Char.isDigit ['T'] = [] := by decide
  have hcolon : List.filter Char.isDigit [':'] = [] := by decide
  have hdot : List.filter Char.isDigit ['.'] = [] := by decide
  have hZ : List.filter Char.isDigit ['Z'] = [] := by decide
  simp only [DateTime.isoChars, List.append_assoc, List.filter_append,
    filter_padChars, hdash, hT, hcolon, hdot, hZ, List.append_nil,
    List.nil_append]

/-- C2: for every fixed clock value (a valid UTC reading with a
four-digit year), `getTimestamp` returns a string of exactly 14 numeric
characters in the form `YYYYMMDDHHmmss` with no separators, derived from the
UTC fields of the clock, with the sub-second digits dropped (the result is
the seconds-resolution rendering, independent of the millisecond field). -/
theorem getTimestamp_format (d : DateTime)
    (hy : d.year ≤ 9999) (hmo : d.month ≤ 12) (hda : d.day ≤ 31)
    (hh : d.hour ≤ 23) (hmi : d.minute ≤ 59) (hs : d.second ≤ 59)
    (hms : d.ms ≤ 999) :
    (getTimestamp d).length = 14 ∧
    (∀ c ∈ (getTimestamp d).data, c.isDigit) ∧
    getTimestamp d = String.mk (padChars 4 d.year ++ padChars 2 d.month ++
      padChars 2 d.day ++ padChars 2 d.hour ++ padChars 2 d.minute ++
      padChars 2 d.second) := by
  have l4 : (padChars 4 d.year).length = 4 := padChars_length (by omega)
  have lmo : (padChars 2 d.month).length = 2 := padChars_length (by omega)
  have lda : (padChars 2 d.day).length = 2 := padChars_length (by omega)
  have lh : (padChars 2 d.hour).length = 2 := padChars_length (by omega)
  have lmi : (padChars 2 d.minute).length = 2 := padChars_length (by omega)
  have ls : (padChars 2 d.second).length = 2 := padChars_length (by omega)
  have lms : (padChars 3 d.ms).length = 3 := padChars_length (by omega)
  have hA : (padChars 4 d.year ++ padChars 2 d.month ++ padChars 2 d.day ++
      padChars 2 d.hour ++ padChars 2 d.minute ++ padChars 2 d.second).length
        = 14 := by
    simp only [List.length_append]
    omega
  have key : getTimestamp d = String.mk (padChars 4 d.year ++
      padChars 2 d.month ++ padChars 2 d.day ++ padChars 2 d.hour ++
      padChars 2 d.minute ++ padChars 2 d.second) := by
    rw [getTimestamp_unfold, isoChars_filter]
    have hL : padChars 4 d.year ++ (padChars 2 d.month ++ (padChars 2 d.day
        ++ (padChars 2 d.hour ++ (padChars 2 d.minute ++ (padChars 2 d.second
        ++ padChars 3 d.ms))))) =
        (padChars 4 d.year ++ padChars 2 d.month ++ padChars 2 d.day ++
        padChars 2 d.hour ++ padChars 2 d.minute ++ padChars 2 d.second) ++
        padChars 3 d.ms := by
      simp only [List.append_assoc]
    rw [hL]
    have hlen : ((padChars 4 d.year ++ padChars 2 d.month ++ padChars 2 d.day
        ++ padChars 2 d.hour ++ padChars 2 d.minute ++ padChars 2 d.second)
        ++ padChars 3 d.ms).length - 3 =
        (padChars 4 d.year ++ padChars 2 d.month ++ padChars 2 d.day ++
        padChars 2 d.hour ++ padChars 2 d.minute ++
        padChars 2 d.second).length := by
      simp only [List.length_append]
      omega
    rw [hlen, List.take_left]
  refine ⟨?_, ?_, key⟩
  · rw [key, mk_length]
    exact hA
  · rw [key, mk_data]
    intro c hc
    simp only [List.append_assoc, List.mem_append] at hc
    rcases hc with h | h | h | h | h | h
    · exact padChars_isDigit 4 d.year c h
    · exact padChars_isDigit 2 d.month c h
    · exact padChars_isDigit 2 d.day c h
    · exact padChars_isDigit 2 d.hour c h
    · exact padChars_isDigit 2 d.minute c h
    · exact padChars_isDigit 2 d.second c h

/-- C2 witness: the theorem at the concrete clock reading
2026-02-11T12:34:56.789Z. -/
theorem getTimestamp_format_witness :
    (getTimestamp dt0).length = 14 ∧
    (∀ c ∈ (getTimestamp dt0).data, c.isDigit) ∧
    getTimestamp dt0 = String.mk (padChars 4 dt0.year ++ padChars 2 dt0.month
      ++ padChars 2 dt0.day ++ padChars 2 dt0.hour ++ padChars 2 dt0.minute
      ++ padChars 2 dt0.second) :=
  getTimestamp_format dt0 (by decide) (by decide) (by decide) (by decide)
    (by decide) (by decide) (by decide)

/-! ## The shape of the outbound trace of `stkPush` -/

/-- Every run of `stkPush` either stops after the token fetch (when it
failed) or performs the token fetch and then exactly the one push `POST`
carrying the body built from the inputs, the timestamp, and the password. -/
theorem stkPush_trace_shape (env : Env) (gw : Gateway) (dt : DateTime)
    (phone amount accountRef transactionDesc : Json) :
    (∃ auth, (stkPush env gw dt phone amount accountRef transactionDesc).2
      = [.tokenFetch auth]) ∨
    (∃ auth hdr,
      (stkPush env gw dt phone amount accountRef transactionDesc).2
        = [.tokenFetch auth,
           .pushPost (stkPushBody env phone amount accountRef transactionDesc
             (getTimestamp dt) (stkPushPassword env (getTimestamp dt))) hdr]) := by
  unfold stkPush getAccessToken
  cases gw.tokenResponse with
  | err m => exact .inl ⟨_, rfl⟩
  | ok data =>
      dsimp only
      cases gw.pushResponse
          (stkPushBody env phone amount accountRef transactionDesc
            (getTimestamp dt) (stkPushPassword env (getTimestamp dt)))
          ("Bearer " ++ jsStr (data.lookup "access_token")) with
      | ok d2 => exact .inr ⟨_, _, rfl⟩
      | err m => exact .inr ⟨_, _, rfl⟩

/-- C1: for every call of `stkPush` with phone, amount, accountRef and
transactionDesc, the JSON body of the outbound push `POST` carries
`TransactionType = "CustomerPayBillOnline"`, the phone value in both
`PartyA` and `PhoneNumber`, and the business shortcode in both `PartyB`
and `BusinessShortCode`. -/
theorem stkPush_pushBody_fields (env : Env) (gw : Gateway) (dt : DateTime)
    (phone amount accountRef transactionDesc : Json)
    (b : StkPushBody) (hdr : String)
    (h : OutCall.pushPost b hdr ∈
      (stkPush env gw dt phone amount accountRef transactionDesc).2) :
    b.TransactionType = "CustomerPayBillOnline" ∧ b.PartyA = phone ∧
    b.PhoneNumber = phone ∧ b.PartyB = env.BUSINESS_SHORTCODE ∧
    b.BusinessShortCode = env.BUSINESS_SHORTCODE := by
  rcases stkPush_trace_shape env gw dt phone amount accountRef transactionDesc
    with ⟨auth, heq⟩ | ⟨auth, hdr2, heq⟩
  · rw [heq] at h
    simp at h
  · rw [heq] at h
    simp only [List.mem_cons, List.not_mem_nil, or_false] at h
    rcases h with h | h
    · exact absurd h (by simp)
    · injection h with hb hh
      subst hb
      exact ⟨rfl, rfl, rfl, rfl, rfl⟩

/-- C1 witness: a concrete run against the all-successful gateway, with the
push call exhibited in its trace. -/
theorem stkPush_pushBody_fields_witness :
    OutCall.pushPost pushBody0 hdr0 ∈
      (stkPush env0 gwOk dt0 (.str "254712345678") (.num 100) (.str "INV001")
        (.str "Test")).2 ∧
    (pushBody0.TransactionType = "CustomerPayBillOnline" ∧
     pushBody0.PartyA = .str "254712345678" ∧
     pushBody0.PhoneNumber = .str "254712345678" ∧
     pushBody0.PartyB = env0.BUSINESS_SHORTCODE ∧
     pushBody0.BusinessShortCode = env0.BUSINESS_SHORTCODE) := by
  have hm : OutCall.pushPost pushBody0 hdr0 ∈
      (stkPush env0 gwOk dt0 (.str "254712345678") (.num 100) (.str "INV001")
        (.str "Test")).2 := by
    rw [show (stkPush env0 gwOk dt0 (.str "254712345678") (.num 100)
      (.str "INV001") (.str "Test")).2 =
      [OutCall.tokenFetch ("Basic " ++ bufferBase64 "key:secret"),
       OutCall.pushPost pushBody0 hdr0] from rfl]
    exact List.mem_cons_of_mem _ (List.mem_cons_self _ _)
  exact ⟨hm, stkPush_pushBody_fields env0 gwOk dt0 _ _ _ _ pushBody0
    hdr0 hm⟩

/-- C3: the password carried by the outbound push body equals the base64
encoding of `shortcode ++ passkey ++ timestamp` for the timestamp carried by
the same body, and that timestamp is the one generated from the clock. -/
theorem stkPush_password_spec (env : Env) (gw : Gateway) (dt : DateTime)
    (phone amount accountRef transactionDesc : Json)
    (b : StkPushBody) (hdr : String)
    (h : OutCall.pushPost b hdr ∈
      (stkPush env gw dt phone amount accountRef transactionDesc).2) :
    b.Password = bufferBase64 (env.BUSINESS_SHORTCODE ++ env.PASSKEY ++
      b.Timestamp) ∧ b.Timestamp = getTimestamp dt := by
  rcases stkPush_trace_shape env gw dt phone amount accountRef transactionDesc
    with ⟨auth, heq⟩ | ⟨auth, hdr2, heq⟩
  · rw [heq] at h
    simp at h
  · rw [heq] at h
    simp only [List.mem_cons, List.not_mem_nil, or_false] at h
    rcases h with h | h
    · exact absurd h (by simp)
    · injection h with hb hh
      subst hb
      exact ⟨rfl, rfl⟩

/-- C3 witness: the same concrete run, with the password equation
instantiated. -/
theorem stkPush_password_spec_witness :
    OutCall.pushPost pushBody0 hdr0 ∈
      (stkPush env0 gwOk dt0 (.str "254712345678") (.num 100) (.str "INV001")
        (.str "Test")).2 ∧
    (pushBody0.Password = bufferBase64 (env0.BUSINESS_SHORTCODE ++
      env0.PASSKEY ++ pushBody0.Timestamp) ∧
     pushBody0.Timestamp = getTimestamp dt0) := by
  have hm : OutCall.pushPost pushBody0 hdr0 ∈
      (stkPush env0 gwOk dt0 (.str "254712345678") (.num 100) (.str "INV001")
        (.str "Test")).2 := by
    rw [show (stkPush env0 gwOk dt0 (.str "254712345678") (.num 100)
      (.str "INV001") (.str "Test")).2 =
      [OutCall.tokenFetch ("Basic " ++ bufferBase64 "key:secret"),
       OutCall.pushPost pushBody0 hdr0] from rfl]
    exact List.mem_cons_of_mem _ (List.mem_cons_self _ _)
  exact ⟨hm, stkPush_password_spec env0 gwOk dt0 _ _ _ _ pushBody0
    hdr0 hm⟩

/-- C7: every invocation of `stkPush` performs exactly one token-fetch call,
and it is the first outbound call of the invocation (so it precedes the push
`POST` when one is issued); the model carries no token state across
invocations, each invocation paying its own fetch. -/
theorem stkPush_one_fresh_token (env : Env) (gw : Gateway) (dt : DateTime)
    (phone amount accountRef transactionDesc : Json) :
    ((stkPush env gw dt phone amount accountRef transactionDesc).2.countP
      (·.isTokenFetch)) = 1 ∧
    (∃ auth, (stkPush env gw dt phone amount accountRef
      transactionDesc).2.head? = some (.tokenFetch auth)) := by
  rcases stkPush_trace_shape env gw dt phone amount accountRef transactionDesc
    with ⟨auth, heq⟩ | ⟨auth, hdr, heq⟩ <;> rw [heq]
  · exact ⟨by simp [OutCall.isTokenFetch], auth, rfl⟩
  · exact ⟨by simp [OutCall.isTokenFetch], auth, rfl⟩

/-- C10: when the token fetch gets a 2xx response whose JSON carries no
`access_token` field, `getAccessToken` returns `undefined` without error and
`stkPush` proceeds to issue the push `POST` with `Authorization: Bearer
undefined`. -/
theorem stkPush_bearer_undefined (env : Env) (gw : Gateway) (dt : DateTime)
    (phone amount accountRef transactionDesc : Json) (data : Json)
    (h1 : gw.tokenResponse = .ok data)
    (h2 : data.lookup "access_token" = none) :
    (getAccessToken env gw).1 = .ok none ∧
    (∃ b, OutCall.pushPost b "Bearer undefined" ∈
      (stkPush env gw dt phone amount accountRef transactionDesc).2) := by
  constructor
  · unfold getAccessToken
    rw [h1]
    dsimp only
    rw [h2]
  · unfold stkPush getAccessToken
    rw [h1]
    dsimp only
    rw [h2]
    rw [show ("Bearer " ++ jsStr none) = "Bearer undefined" from rfl]
    cases gw.pushResponse
        (stkPushBody env phone amount accountRef transactionDesc
          (getTimestamp dt) (stkPushPassword env (getTimestamp dt)))
        "Bearer undefined" with
    | ok d2 => exact ⟨_, List.mem_cons_of_mem _ (List.mem_cons_self _ _)⟩
    | err m => exact ⟨_, List.mem_cons_of_mem _ (List.mem_cons_self _ _)⟩

/-- C10 witness: the gateway answering 2xx with `{expires_in: "3599"}` and no
`access_token`. -/
theorem stkPush_bearer_undefined_witness :
    (getAccessToken env0 gwNoToken).1 = .ok none ∧
    (∃ b, OutCall.pushPost b "Bearer undefined" ∈
      (stkPush env0 gwNoToken dt0 (.str "254712345678") (.num 100)
        (.str "INV001") (.str "Test")).2) :=
  stkPush_bearer_undefined env0 gwNoToken dt0 (.str "254712345678")
    (.num 100) (.str "INV001") (.str "Test")
    (.obj [("expires_in", .str "3599")]) rfl rfl

/-! ## The `/stkpush` and `/callback` handlers -/

/-- C4: a `POST /stkpush` whose JSON body is missing any of the four fields
phone, amount, reference, description is answered with status 400, and no
outbound HTTP call (neither token fetch nor push) is performed. -/
theorem handleStkPush_missing_field (env : Env) (gw : Gateway)
    (dt : DateTime) (reqBody : Json)
    (h : reqBody.lookup "phone" = none ∨ reqBody.lookup "amount" = none ∨
      reqBody.lookup "reference" = none ∨
      reqBody.lookup "description" = none) :
    (handleStkPush env gw dt reqBody).1.status = 400 ∧
    (handleStkPush env gw dt reqBody).2 = [] := by
  simp only [handleStkPush]
  rcases h with h | h | h | h <;> rw [h] <;> simp [jsFalsy]

/-- C4 witness: a request body with the description field absent. -/
theorem handleStkPush_missing_field_witness :
    (Json.obj [("phone", .str "254712345678"), ("amount", .num 100),
      ("reference", .str "INV001")]).lookup "description" = none ∧
    ((handleStkPush env0 gwOk dt0 (Json.obj [("phone", .str "254712345678"),
      ("amount", .num 100), ("reference", .str "INV001")])).1.status = 400 ∧
     (handleStkPush env0 gwOk dt0 (Json.obj [("phone", .str "254712345678"),
      ("amount", .num 100), ("reference", .str "INV001")])).2 = []) :=
  ⟨rfl, handleStkPush_missing_field env0 gwOk dt0 _ (.inr (.inr (.inr rfl)))⟩

/-- C9: a `POST /stkpush` whose body has all four fields present but at
least one of them falsy (for example amount 0 or an empty phone string) is
answered with status 400 and no outbound call: the validation tests
falsiness, not absence. -/
theorem handleStkPush_falsy_field (env : Env) (gw : Gateway) (dt : DateTime)
    (reqBody : Json)
    (hp : (reqBody.lookup "phone").isSome = true)
    (ha : (reqBody.lookup "amount").isSome = true)
    (hr : (reqBody.lookup "reference").isSome = true)
    (hd : (reqBody.lookup "description").isSome = true)
    (hf : jsFalsy (reqBody.lookup "phone") = true ∨
      jsFalsy (reqBody.lookup "amount") = true ∨
      jsFalsy (reqBody.lookup "reference") = true ∨
      jsFalsy (reqBody.lookup "description") = true) :
    (handleStkPush env gw dt reqBody).1.status = 400 ∧
    (handleStkPush env gw dt reqBody).2 = [] := by
  simp only [handleStkPush]
  rcases hf with h | h | h | h <;> rw [h] <;> simp

/-- C9 witness: all four fields present, amount equal to `0`. -/
theorem handleStkPush_falsy_field_witness :
    ((Json.obj [("phone", .str "254712345678"), ("amount", .num 0),
      ("reference", .str "INV001"),
      ("description", .str "Test")]).lookup "amount").isSome = true ∧
    jsFalsy ((Json.obj [("phone", .str "254712345678"), ("amount", .num 0),
      ("reference", .str "INV001"),
      ("description", .str "Test")]).lookup "amount") = true ∧
    ((handleStkPush env0 gwOk dt0 (Json.obj [("phone", .str "254712345678"),
      ("amount", .num 0), ("reference", .str "INV001"),
      ("description", .str "Test")])).1.status = 400 ∧
     (handleStkPush env0 gwOk dt0 (Json.obj [("phone", .str "254712345678"),
      ("amount", .num 0), ("reference", .str "INV001"),
      ("description", .str "Test")])).2 = []) :=
  ⟨rfl, rfl, handleStkPush_falsy_field env0 gwOk dt0 _ rfl rfl rfl rfl
    (.inr (.inl rfl))⟩

/-- C5: a `POST /stkpush` that passes field validation, hitting a gateway
whose token fetch fails, is answered with status 500 and the JSON body
`{error: "Failed to get M-Pesa access token"}`, and the push `POST` is never
attempted. -/
theorem handleStkPush_token_failure (env : Env) (gw : Gateway)
    (dt : DateTime) (reqBody : Json) (emsg : String)
    (hp : jsFalsy (reqBody.lookup "phone") = false)
    (ha : jsFalsy (reqBody.lookup "amount") = false)
    (hr : jsFalsy (reqBody.lookup "reference") = false)
    (hd : jsFalsy (reqBody.lookup "description") = false)
    (htok : gw.tokenResponse = .err emsg) :
    (handleStkPush env gw dt reqBody).1 =
      ⟨500, .json (.obj [("error",
        .str "Failed to get M-Pesa access token")])⟩ ∧
    ((handleStkPush env gw dt reqBody).2.countP (·.isPush)) = 0 := by
  simp only [handleStkPush]
  rw [hp, ha, hr, hd]
  simp [stkPush, getAccessToken, htok, OutCall.isPush]

/-- C5 witness: the valid request body against the gateway whose token fetch
fails with a network error. -/
theorem handleStkPush_token_failure_witness :
    jsFalsy (reqBody0.lookup "phone") = false ∧
    gwTokenErr.tokenResponse = .err "connect ECONNREFUSED" ∧
    ((handleStkPush env0 gwTokenErr dt0 reqBody0).1 =
      ⟨500, .json (.obj [("error",
        .str "Failed to get M-Pesa access token")])⟩ ∧
     ((handleStkPush env0 gwTokenErr dt0 reqBody0).2.countP (·.isPush)) = 0) :=
  ⟨rfl, rfl, handleStkPush_token_failure env0 gwTokenErr dt0 reqBody0
    "connect ECONNREFUSED" rfl rfl rfl rfl rfl⟩

/-- C8: the end-to-end example: `POST /stkpush` with
`{phone: "254712345678", amount: 100, reference: "INV001",
description: "Test"}` against the mocked gateway whose token fetch succeeds
and whose push answers `{CheckoutRequestID: "ws_1"}` yields HTTP 200 with
the gateway response relayed verbatim, for every environment and clock. -/
theorem handleStkPush_end_to_end (env : Env) (dt : DateTime) :
    (handleStkPush env gwOk dt reqBody0).1 =
      ⟨200, .json (.obj [("CheckoutRequestID", .str "ws_1")])⟩ := rfl

/-- C6 counterexample: the `/callback` handler answers an arbitrary payload
(here `{}`) with status 200, but its body is not empty: `res.sendStatus(200)`
sends the status message `OK` as the body. -/
theorem handleCallback_body_not_empty :
    (handleCallback (Json.obj [])).status = 200 ∧
    (handleCallback (Json.obj [])).body ≠ RespBody.empty := by
  refine ⟨rfl, ?_⟩
  intro h
  simp [handleCallback] at h

/-- C6 (amended): for every JSON payload, the `/callback` handler answers
status 200 with the plain-text status message `OK` as body (never an
error). -/
theorem handleCallback_always_200 (payload : Json) :
    handleCallback payload = ⟨200, RespBody.text "OK"⟩ := rfl

end Stk
